import Mathlib

/-!
Verification of the ConsultAID session-scoped conversational RAG engine.

The definitions below are a shallow embedding of the Python sources:
`translation_service.py` (language detection, translation cache),
`model_loader.py` (`ConversationalRAG`: context window, prompt assembly,
query pipeline, user-language latching), `app.py` (session registry,
init/ask/reset endpoints, background idle sweep) and
`backend/chatbot/rag_engine.py` (the Django backend engine).

External collaborators (the langid classifier, the googletrans backend,
the generation backend, the vector store) are passed in as oracle
functions; everything the repository's own code computes is embedded
directly.
-/

namespace ConsultAID

/-! ## Python string primitives

Helpers mirroring the exact Python string operations the sources use:
`str.strip()`, `str.lower()`, `str.split()` (whitespace runs, no empty
chunks), `str.strip('.,!?')` and slicing `text[:100]`. -/

/-- Characters Python's `str.strip()` / `str.split()` treat as whitespace
(ASCII fragment; the inputs in this development are ASCII). -/
def isPySpace (c : Char) : Bool :=
  c = ' ' || c = '\t' || c = '\n' || c = '\r' || c = '\x0b' || c = '\x0c'

/-- Python `s.strip()`: drop leading and trailing whitespace. -/
def pyStrip (s : String) : String :=
  ⟨((s.data.dropWhile isPySpace).reverse.dropWhile isPySpace).reverse⟩

/-- Python `s.lower()` (ASCII). -/
def pyLower (s : String) : String :=
  ⟨s.data.map Char.toLower⟩

/-- Helper for `pySplit`: walk the characters, `acc` holds the current
word reversed. -/
def splitWsAux : List Char → List Char → List String
  | [], acc => if acc = [] then [] else [⟨acc.reverse⟩]
  | c :: cs, acc =>
    if isPySpace c then
      if acc = [] then splitWsAux cs []
      else ⟨acc.reverse⟩ :: splitWsAux cs []
    else splitWsAux cs (c :: acc)

/-- Python `s.split()`: split on whitespace runs, discarding empty chunks. -/
def pySplit (s : String) : List String :=
  splitWsAux s.data []

/-- The characters stripped by `word.strip('.,!?')` in `detect_language`. -/
def isStripPunct (c : Char) : Bool :=
  c = '.' || c = ',' || c = '!' || c = '?'

/-- Python `w.strip('.,!?')`. -/
def stripPunct (s : String) : String :=
  ⟨((s.data.dropWhile isStripPunct).reverse.dropWhile isStripPunct).reverse⟩

/-- Python `text[:100]`. -/
def pyTake100 (s : String) : String :=
  ⟨s.data.take 100⟩

/-! ## `translation_service.py` — `TranslationService` -/

/-- The `common_english_words` set of `TranslationService.detect_language`
(`translation_service.py` lines 30-35). -/
def common_english_words : List String :=
  ["hello", "hi", "hey", "thanks", "thank", "you", "yes", "no",
   "please", "sorry", "ok", "okay", "bye", "goodbye", "help",
   "what", "when", "where", "why", "how", "who", "can", "will",
   "the", "and", "or", "but", "for", "with", "this", "that"]

/-- `TranslationService.detect_language` (`translation_service.py` lines
18-63).  The external `langid.classify` call is the oracle `classify`,
returning a (language, confidence) pair. -/
def detect_language (classify : String → String × Rat) (text : String) : String :=
  if pyStrip text = "" then "en"
  else
    let clean_text := pyStrip text
    if clean_text.length < 3 then "en"
    else
      let words := pySplit (pyLower clean_text)
      if words.length ≤ 2 ∧ words.all (fun w => common_english_words.contains (stripPunct w)) then
        "en"
      else
        let res := classify clean_text
        if res.2 < (0.8 : Rat) ∧ clean_text.length < 20 then "en"
        else if res.2 < (0.6 : Rat) then "en"
        else res.1

/-- The part of `detect_language` decided before the external classifier is
consulted: `some r` when the function returns `r` without calling
`langid.classify`, `none` when the classifier would be consulted. -/
def detect_language_pre (text : String) : Option String :=
  if pyStrip text = "" then some "en"
  else
    let clean_text := pyStrip text
    if clean_text.length < 3 then some "en"
    else
      let words := pySplit (pyLower clean_text)
      if words.length ≤ 2 ∧ words.all (fun w => common_english_words.contains (stripPunct w)) then
        some "en"
      else
        none

theorem detect_language_pre_sound (classify : String → String × Rat) (text : String)
    (r : String) (h : detect_language_pre text = some r) :
    detect_language classify text = r := by
  unfold detect_language_pre at h
  unfold detect_language
  by_cases h1 : pyStrip text = "" <;>
    by_cases h2 : (pyStrip text).length < 3 <;>
      by_cases h3 : (pySplit (pyLower (pyStrip text))).length ≤ 2 ∧
        ((pySplit (pyLower (pyStrip text))).all
          (fun w => common_english_words.contains (stripPunct w)) = true) <;>
    simp_all

/-- The translation cache key: Python
`f"{source_language}:{target_language}:{text[:100]}"`
(`translation_service.py` line 76).  Note only the first 100 characters of
the text enter the key. -/
def cache_key (source_language target_language text : String) : String :=
  source_language ++ ":" ++ target_language ++ ":" ++ pyTake100 text

/-- Result of one `translate_text` call: the returned text, the cache
after the call, and whether the external translation backend was invoked. -/
structure TransResult where
  text : String
  cache : List (String × String)
  backendCalled : Bool
  deriving Repr, DecidableEq

/-- `TranslationService.translate_text` (`translation_service.py` lines
65-100).  The external `googletrans` call is the oracle `backend`
(arguments: text, source, target); `none` models the backend raising, in
which case the `except` clause returns the original text. -/
def translate_text (backend : String → String → String → Option String)
    (cache : List (String × String))
    (text target_language source_language : String) : TransResult :=
  if pyStrip text = "" then ⟨text, cache, false⟩
  else if target_language = "en" ∧ source_language = "en" then ⟨text, cache, false⟩
  else
    let key := cache_key source_language target_language text
    match cache.lookup key with
    | some v => ⟨v, cache, false⟩
    | none =>
      match backend text source_language target_language with
      | some translated => ⟨translated, (key, translated) :: cache, true⟩
      | none => ⟨text, cache, true⟩

/-! ## `model_loader.py` — `ConversationalRAG` -/

/-- One persisted conversation entry, as built in
`ConversationalRAG.query_with_context` (`model_loader.py` lines 325-333).
The pivot-language fields are `Option`s because a legacy on-disk turn may
lack them, in which case `query_with_context` falls back to the
original-language fields (`conv.get('english_query', conv['query'])`). -/
structure ConvTurn where
  query : String
  response : String
  english_query : Option String
  english_response : Option String
  detected_language : String
  user_language : String
  timestamp : Int
  deriving Repr, DecidableEq

/-- `self.max_context_turns = 5` (`model_loader.py` line 33). -/
def max_context_turns : Nat := 5

/-- Python list slice `l[-k:]`: the last `k` elements (all of them when
`k = 0`, because `l[-0:]` is `l[0:]`). -/
def pySliceLast (k : Nat) (l : List α) : List α :=
  if k = 0 then l else l.drop (l.length - k)

/-- `self.conversation_history[-self.max_context_turns:]`
(`model_loader.py` line 288). -/
def recent_conversations (history : List ConvTurn) : List ConvTurn :=
  pySliceLast max_context_turns history

/-- One element of `context_parts`:
`f"Previous Q: {conv.get('english_query', conv['query'])}\nPrevious A: {conv.get('english_response', conv['response'])}"`
(`model_loader.py` line 290). -/
def contextLine (conv : ConvTurn) : String :=
  "Previous Q: " ++ conv.english_query.getD conv.query ++
    "\nPrevious A: " ++ conv.english_response.getD conv.response

/-- Python `"\n".join(parts)` (`model_loader.py` line 293). -/
def joinLines : List String → String
  | [] => ""
  | [x] => x
  | x :: xs => x ++ "\n" ++ joinLines xs

/-- The `context` string built from the window
(`model_loader.py` lines 288-293). -/
def buildContext (history : List ConvTurn) : String :=
  joinLines ((recent_conversations history).map contextLine)

/-- The `enhanced_query` handed to the QA chain
(`model_loader.py` lines 296-299): the windowed conversation context
prepended to the current pivot-language query, or the query alone when the
context string is empty. -/
def enhanced_query (history : List ConvTurn) (english_query : String) : String :=
  let context := buildContext history
  if context = "" then english_query
  else "Recent conversation context:\n" ++ context ++ "\n\nCurrent question: " ++ english_query

/-- `search_kwargs={"k": 3}` in `ConversationalRAG.setup_qa_chain`
(`model_loader.py` line 225): the number of chunks the session pipeline's
retriever returns. -/
def search_k : Nat := 3

/-- `top_k: int = 4`, the default of `RAGEngine.retrieve_context`
(`backend/chatbot/rag_engine.py` line 95). -/
def retrieve_context_top_k : Nat := 4

/-- The string on which similarity search runs for a query of
`ConversationalRAG.query_with_context`: the code invokes the `RetrievalQA`
chain as `self.qa.invoke({"query": enhanced_query})` (`model_loader.py`
line 303), and langchain's `RetrievalQA` passes its query input to its
retriever, so the retrieval input is exactly `enhanced_query`. -/
def retrievalInput (history : List ConvTurn) (english_query : String) : String :=
  enhanced_query history english_query

/-- The fixed apology returned when the QA chain raises
(`model_loader.py` line 313). -/
def apology_message : String :=
  "I apologize, but I encountered an error while processing your question. Please try again or rephrase your question."

/-- `self.user_language = 'en'` in `ConversationalRAG.__init__`
(`model_loader.py` line 39). -/
def default_user_language : String := "en"

/-- The user-language update rule of `query_with_context`
(`model_loader.py` lines 275-276): only a session still at the pivot
language adopts a newly detected non-pivot language. -/
def set_user_language (current detected : String) : String :=
  if current = "en" ∧ detected ≠ "en" then detected else current

/-- The external collaborators of `query_with_context`, as oracles:
language detection, the two translation directions (already specialized
from the session's `TranslationService`), and the QA chain / generation
backend (`none` models `self.qa.invoke` raising). -/
structure PipelineEnv where
  detect : String → String
  toEnglish : String → String → String
  fromEnglish : String → String → String
  gen : String → Option String

/-- The session state `query_with_context` reads and writes. -/
structure RAGState where
  user_language : String
  conversation_history : List ConvTurn
  last_used : Int
  deriving Repr, DecidableEq

/-- Result of one `query_with_context` call: the returned response, the
session state afterwards, and how many times the generation backend was
invoked. -/
structure QueryResult where
  response : String
  state : RAGState
  genCalls : Nat
  deriving Repr, DecidableEq

/-- `ConversationalRAG.query_with_context` (`model_loader.py` lines
259-340): refresh `last_used`; reject blank queries; detect the language;
latch the user language; translate the query to the pivot language; build
the windowed enhanced query; invoke the QA chain, recovering a failure
into the fixed apology; translate the response back; append the turn. -/
def query_with_context (env : PipelineEnv) (now : Int) (st : RAGState)
    (query : String) : QueryResult :=
  let st := { st with last_used := now }
  if pyStrip query = "" then ⟨"Please provide a valid question.", st, 0⟩
  else
    let original_query := pyStrip query
    let detected_language := env.detect original_query
    let user_language := set_user_language st.user_language detected_language
    let english_query :=
      if detected_language ≠ "en" then env.toEnglish original_query detected_language
      else original_query
    let eq := enhanced_query st.conversation_history english_query
    let english_response := (env.gen eq).getD apology_message
    let final_response :=
      if user_language ≠ "en" then env.fromEnglish english_response user_language
      else english_response
    let entry : ConvTurn :=
      ⟨original_query, final_response, some english_query, some english_response,
        detected_language, user_language, now⟩
    ⟨final_response,
      { user_language := user_language,
        conversation_history := st.conversation_history ++ [entry],
        last_used := now },
      1⟩

/-! ## `app.py` — session registry, endpoints, idle sweep

State observed by the lifecycle claims: the registry `active_sessions`
(session id together with the instance's `last_used` value) and the set of
session ids whose on-disk directory `user_sessions/<id>` exists. -/

/-- `SESSION_TIMEOUT_SECONDS = 3600` (`app.py` line 20). -/
def SESSION_TIMEOUT_SECONDS : Int := 3600

/-- The lifecycle-level system state: the registry (`active_sessions`,
as an association list id ↦ `last_used`) and the ids whose directory
`user_sessions/<id>` exists on disk. -/
structure SysState where
  registry : List (String × Int)
  disk : List String
  deriving Repr, DecidableEq

/-- The process-start state: no session registered, no session directory. -/
def SysState.empty : SysState := ⟨[], []⟩

/-- The `/api/init` endpoint (`app.py` lines 29-66) combined with
`ConversationalRAG.__init__` (`model_loader.py` lines 20-60): if the id is
already registered, nothing changes; otherwise the constructor first runs
`os.makedirs(self.session_path, exist_ok=True)` and only then the failable
setup.  `ok = true` models setup succeeding (the instance, carrying
`last_used = now`, is registered); `ok = false` models the constructor
raising, in which case the endpoint registers nothing — but the directory
created by `makedirs` is not removed. -/
def init_session (sid : String) (ok : Bool) (now : Int) (s : SysState) : SysState :=
  if s.registry.any (fun e => e.1 = sid) then s
  else if ok then
    { registry := (sid, now) :: s.registry,
      disk := if sid ∈ s.disk then s.disk else sid :: s.disk }
  else
    { s with disk := if sid ∈ s.disk then s.disk else sid :: s.disk }

/-- The `/api/ask` endpoint's effect on lifecycle state (`app.py` lines
106-145 with `model_loader.py` line 262): an unknown id is rejected with
no state change; a registered session has its `last_used` refreshed. -/
def touch_session (sid : String) (now : Int) (s : SysState) : SysState :=
  if s.registry.any (fun e => e.1 = sid) then
    { s with registry := s.registry.map (fun e => if e.1 = sid then (e.1, now) else e) }
  else s

/-- The `/api/reset` endpoint (`app.py` lines 148-168): when the id is
registered, `complete_system_reset` removes the session directory
(`model_loader.py` lines 82-83) and then `del active_sessions[session_id]`
unregisters it; when the id is not registered, nothing happens and success
is still reported. -/
def reset_endpoint (sid : String) (s : SysState) : SysState :=
  if s.registry.any (fun e => e.1 = sid) then
    { registry := s.registry.filter (fun e => e.1 ≠ sid),
      disk := s.disk.filter (fun d => d ≠ sid) }
  else s

/-- The sweep's scan-and-decide phase (`app.py` lines 80-85): under the
lock, collect every id with `current_time - last_used > SESSION_TIMEOUT_SECONDS`. -/
def sweep_scan (now : Int) (s : SysState) : List String :=
  ((s.registry.filter (fun e => SESSION_TIMEOUT_SECONDS < now - e.2)).map Prod.fst)

/-- One iteration of the sweep's destruction loop (`app.py` lines 89-95):
re-take the lock, and if the id is *still registered* (the only
re-validation the code performs), run `complete_system_reset` (deleting
the directory) and unregister it.  `last_used` is not re-checked. -/
def sweep_destroy_step (s : SysState) (sid : String) : SysState :=
  if s.registry.any (fun e => e.1 = sid) then
    { registry := s.registry.filter (fun e => e.1 ≠ sid),
      disk := s.disk.filter (fun d => d ≠ sid) }
  else s

/-- The sweep's destruction phase over the flagged ids (`app.py` lines
87-95). -/
def sweep_destroy (ids : List String) (s : SysState) : SysState :=
  ids.foldl sweep_destroy_step s

/-- Lifecycle states reachable from process start.  `sweep` is an
uninterrupted sweep cycle; `sweepRace` is a sweep cycle with a query on
`qsid` arriving between the scan snapshot and the destruction phase —
exactly the interleaving §4.2 of the spec is about, which the threaded
code permits because `query_with_context` refreshes `last_used` outside
the sweep's lock. -/
inductive Reachable : SysState → Prop
  | start : Reachable SysState.empty
  | initSession {s} (sid : String) (ok : Bool) (now : Int) :
      Reachable s → Reachable (init_session sid ok now s)
  | query {s} (sid : String) (now : Int) :
      Reachable s → Reachable (touch_session sid now s)
  | reset {s} (sid : String) :
      Reachable s → Reachable (reset_endpoint sid s)
  | sweep {s} (now : Int) :
      Reachable s → Reachable (sweep_destroy (sweep_scan now s) s)
  | sweepRace {s} (now : Int) (qsid : String) (qnow : Int) :
      Reachable s → Reachable (sweep_destroy (sweep_scan now s) (touch_session qsid qnow s))

/-! ## Helper lemmas -/

theorem foldl_set_user_language_stable (ds : List String) (cur : String) (h : cur ≠ "en") :
    ds.foldl set_user_language cur = cur := by
  induction ds with
  | nil => rfl
  | cons d ds ih => simpa [List.foldl_cons, set_user_language, h] using ih

/-! ## C7 — context window -/

/-- C7: for a conversation log of `n` turns, the slice the pipeline feeds
into prompt construction (`history[-k:]`, used with
`k = max_context_turns = 5`) has exactly `min k n` turns and is a suffix
of the log, i.e. the last `min k n` turns in chronological order: all `n`
turns when `k > n` and exactly the last `k` when `k ≤ n`. -/
theorem c7_window_last_min_turns (l : List ConvTurn) (k : Nat) (hk : 1 ≤ k) :
    (pySliceLast k l).length = min k l.length ∧
    l.take (l.length - k) ++ pySliceLast k l = l ∧
    recent_conversations l = pySliceLast max_context_turns l := by
  refine ⟨?_, ?_, rfl⟩
  · unfold pySliceLast
    rw [if_neg (by omega)]
    rw [List.length_drop]
    omega
  · unfold pySliceLast
    rw [if_neg (by omega)]
    exact List.take_append_drop _ _

/-- A three-turn log for the window witness. -/
def sampleHistory : List ConvTurn :=
  [⟨"q1", "r1", some "eq1", some "er1", "en", "en", 0⟩,
   ⟨"q2", "r2", some "eq2", some "er2", "en", "en", 1⟩,
   ⟨"q3", "r3", some "eq3", some "er3", "en", "en", 2⟩]

theorem c7_window_last_min_turns_witness :
    (pySliceLast 2 sampleHistory).length = min 2 sampleHistory.length ∧
    sampleHistory.take (sampleHistory.length - 2) ++ pySliceLast 2 sampleHistory = sampleHistory ∧
    recent_conversations sampleHistory = pySliceLast max_context_turns sampleHistory :=
  c7_window_last_min_turns sampleHistory 2 (by decide)

/-! ## C8 — language-detection fallback -/

theorem detect_language_pre_short (text : String) (h : (pyStrip text).length < 3) :
    detect_language_pre text = some "en" := by
  unfold detect_language_pre
  by_cases h1 : pyStrip text = "" <;> simp [h1, h]

theorem pyStrip_eq_empty_of_all_space (text : String) (h : text.data.all isPySpace = true) :
    pyStrip text = "" := by
  unfold pyStrip
  have h1 : text.data.dropWhile isPySpace = [] := by
    rw [List.dropWhile_eq_nil_iff]
    exact List.all_eq_true.mp h
  rw [h1]
  rfl

/-- C8: language detection returns the pivot code `en` for *every*
whitespace-only input (the empty string included) and for *every* input
shorter than 3 characters after stripping — in particular for `""`,
`"  "` and `"hi"` — and every word on the high-frequency English
allow-list is classified `en`; all of this independently of the external
classifier. -/
theorem c8_detect_short_fallback (classify : String → String × Rat) :
    (∀ text : String, text.data.all isPySpace = true →
      detect_language classify text = "en") ∧
    (∀ text : String, (pyStrip text).length < 3 →
      detect_language classify text = "en") ∧
    detect_language classify "" = "en" ∧
    detect_language classify "  " = "en" ∧
    detect_language classify "hi" = "en" ∧
    ∀ w ∈ common_english_words, detect_language classify w = "en" := by
  have hshort : ∀ text : String, (pyStrip text).length < 3 →
      detect_language classify text = "en" := fun text h =>
    detect_language_pre_sound classify text "en" (detect_language_pre_short text h)
  refine ⟨?_, hshort, hshort "" (by decide), hshort "  " (by decide),
          hshort "hi" (by decide), ?_⟩
  · intro text h
    apply hshort
    rw [pyStrip_eq_empty_of_all_space text h]
    decide
  · intro w hw
    refine detect_language_pre_sound classify _ _ ?_
    have hall : common_english_words.all (fun w => detect_language_pre w == some "en") = true := by
      decide
    rw [List.all_eq_true] at hall
    simpa using hall w hw

theorem c8_detect_short_fallback_witness :
    detect_language (fun _ => ("it", (1 : Rat))) " \t " = "en" ∧
    detect_language (fun _ => ("it", (1 : Rat))) "zz" = "en" ∧
    detect_language (fun _ => ("it", (1 : Rat))) "" = "en" ∧
    detect_language (fun _ => ("it", (1 : Rat))) "  " = "en" ∧
    detect_language (fun _ => ("it", (1 : Rat))) "hi" = "en" ∧
    detect_language (fun _ => ("it", (1 : Rat))) "hello" = "en" := by
  obtain ⟨h0, h1, h2, h3, h4, h5⟩ := c8_detect_short_fallback (fun _ => ("it", (1 : Rat)))
  exact ⟨h0 " \t " (by decide), h1 "zz" (by decide), h2, h3, h4, h5 "hello" (by decide)⟩

/-! ## C9 — pivot-to-pivot translation is a no-op -/

/-- C9: `translate_text text "en" "en"` returns the text unchanged, leaves
the cache unchanged, and never invokes the external translation backend. -/
theorem c9_translate_pivot_noop (backend : String → String → String → Option String)
    (cache : List (String × String)) (text : String) :
    translate_text backend cache text "en" "en" = ⟨text, cache, false⟩ := by
  unfold translate_text
  split_ifs with h1 h2
  · rfl
  · rfl
  · exact absurd ⟨rfl, rfl⟩ h2

/-! ## C10 — the user language latches on the first non-pivot detection -/

/-- C10: the session's user language starts as the pivot `en`; over any
sequence of detected languages it equals the first non-`en` detection (or
stays `en` if there is none); once non-`en` it never changes again; and
one `query_with_context` call updates it exactly by `set_user_language`
applied to the detected language of the stripped query. -/
theorem c10_user_language_latches (ds es : List String) (env : PipelineEnv)
    (now : Int) (st : RAGState) (q : String) :
    ds.foldl set_user_language default_user_language
      = (ds.find? (fun d => !(d == "en"))).getD "en" ∧
    (ds.foldl set_user_language default_user_language ≠ "en" →
      (ds ++ es).foldl set_user_language default_user_language
        = ds.foldl set_user_language default_user_language) ∧
    (pyStrip q ≠ "" →
      (query_with_context env now st q).state.user_language
        = set_user_language st.user_language (env.detect (pyStrip q))) := by
  refine ⟨?_, ?_, ?_⟩
  · induction ds with
    | nil => rfl
    | cons d ds ih =>
      by_cases h : d = "en"
      · subst h
        simpa [List.foldl_cons, set_user_language, List.find?, default_user_language] using ih
      · have hb : (d == "en") = false := by simpa using h
        simp [List.foldl_cons, set_user_language, h, hb, List.find?, default_user_language,
              foldl_set_user_language_stable ds d h]
  · intro h
    rw [List.foldl_append]
    exact foldl_set_user_language_stable es _ h
  · intro h
    simp [query_with_context, if_neg h]

theorem c10_user_language_latches_witness :
    (["fr"].foldl set_user_language default_user_language
      = ((["fr"].find? (fun d => !(d == "en"))).getD "en")) ∧
    ((["fr"] ++ ["de"]).foldl set_user_language default_user_language
      = ["fr"].foldl set_user_language default_user_language) ∧
    ((query_with_context ⟨fun _ => "fr", fun t _ => t, fun t _ => t, fun _ => none⟩
        0 ⟨"en", [], 0⟩ "hola").state.user_language
      = set_user_language "en" "fr") := by
  obtain ⟨h1, h2, h3⟩ := c10_user_language_latches ["fr"] ["de"]
    ⟨fun _ => "fr", fun t _ => t, fun t _ => t, fun _ => none⟩ 0 ⟨"en", [], 0⟩ "hola"
  exact ⟨h1, h2 (by decide), h3 (by decide)⟩

/-! ## C1 — the idle sweep does not re-validate idleness -/

/-- C1: trace refuting the liveness requirement.  Session `"s"` is created
at time 0; the sweep scans at time 4000 (idle 4000 s > 3600 s) and flags
it; a query refreshes `last_used` to 4000 between the scan snapshot and
the destruction phase; the destruction loop, which only re-checks registry
membership and never `last_used`, destroys the session anyway.  The final
conjunct shows a re-validating sweep would have spared it: scanning the
refreshed state flags nothing. -/
theorem c1_sweep_destroys_refreshed_session :
    Reachable (sweep_destroy (sweep_scan 4000 (init_session "s" true 0 SysState.empty))
      (touch_session "s" 4000 (init_session "s" true 0 SysState.empty))) ∧
    sweep_scan 4000 (init_session "s" true 0 SysState.empty) = ["s"] ∧
    touch_session "s" 4000 (init_session "s" true 0 SysState.empty)
      = ⟨[("s", 4000)], ["s"]⟩ ∧
    sweep_destroy (sweep_scan 4000 (init_session "s" true 0 SysState.empty))
      (touch_session "s" 4000 (init_session "s" true 0 SysState.empty)) = ⟨[], []⟩ ∧
    sweep_scan 4000 (touch_session "s" 4000 (init_session "s" true 0 SysState.empty)) = [] :=
  ⟨Reachable.sweepRace 4000 "s" 4000 (Reachable.initSession "s" true 0 Reachable.start),
    by decide, by decide, by decide, by decide⟩

/-! ## C2 — directory-iff-registered invariant -/

/-- The direction of the on-disk invariant the code does maintain:
every registered session id has its directory on disk. -/
def RegImpliesDisk (s : SysState) : Prop :=
  ∀ sid ∈ s.registry.map Prod.fst, sid ∈ s.disk

theorem keys_map_touch (reg : List (String × Int)) (sid : String) (now : Int) :
    (reg.map (fun e => if e.1 = sid then (e.1, now) else e)).map Prod.fst
      = reg.map Prod.fst := by
  induction reg with
  | nil => rfl
  | cons e es ih => by_cases hc : e.1 = sid <;> simp [hc, ih]

theorem keys_filter_subset (reg : List (String × Int)) (sid sid' : String)
    (h : sid' ∈ (reg.filter (fun e => e.1 ≠ sid)).map Prod.fst) :
    sid' ∈ reg.map Prod.fst ∧ sid' ≠ sid := by
  simp only [List.mem_map, List.mem_filter, decide_eq_true_eq] at h ⊢
  obtain ⟨e, ⟨he, hne⟩, rfl⟩ := h
  exact ⟨⟨e, he, rfl⟩, hne⟩

theorem regImpliesDisk_init (sid : String) (ok : Bool) (now : Int) {s : SysState}
    (h : RegImpliesDisk s) : RegImpliesDisk (init_session sid ok now s) := by
  unfold init_session
  intro sid' hmem
  split_ifs at hmem ⊢ with h1 h2 h3 h3
  · exact h sid' hmem
  · simp only [List.map_cons, List.mem_cons] at hmem
    rcases hmem with rfl | hmem'
    · exact h3
    · exact h sid' hmem'
  · simp only [List.map_cons, List.mem_cons] at hmem
    rcases hmem with rfl | hmem'
    · exact List.mem_cons_self _ _
    · exact List.mem_cons_of_mem _ (h sid' hmem')
  · exact h sid' hmem
  · exact List.mem_cons_of_mem _ (h sid' hmem)

theorem regImpliesDisk_touch (sid : String) (now : Int) {s : SysState}
    (h : RegImpliesDisk s) : RegImpliesDisk (touch_session sid now s) := by
  unfold touch_session
  intro sid' hmem
  split_ifs at hmem ⊢ with h1
  · rw [keys_map_touch] at hmem
    exact h sid' hmem
  · exact h sid' hmem

theorem regImpliesDisk_reset (sid : String) {s : SysState}
    (h : RegImpliesDisk s) : RegImpliesDisk (reset_endpoint sid s) := by
  unfold reset_endpoint
  intro sid' hmem
  split_ifs at hmem ⊢ with h1
  · obtain ⟨hk, hne⟩ := keys_filter_subset _ _ _ hmem
    rw [List.mem_filter]
    exact ⟨h sid' hk, by simpa using hne⟩
  · exact h sid' hmem

theorem regImpliesDisk_destroy_step (sid : String) {s : SysState}
    (h : RegImpliesDisk s) : RegImpliesDisk (sweep_destroy_step s sid) := by
  unfold sweep_destroy_step
  intro sid' hmem
  split_ifs at hmem ⊢ with h1
  · obtain ⟨hk, hne⟩ := keys_filter_subset _ _ _ hmem
    rw [List.mem_filter]
    exact ⟨h sid' hk, by simpa using hne⟩
  · exact h sid' hmem

theorem regImpliesDisk_destroy (ids : List String) {s : SysState}
    (h : RegImpliesDisk s) : RegImpliesDisk (sweep_destroy ids s) := by
  induction ids generalizing s with
  | nil => exact h
  | cons i is ih => exact ih (regImpliesDisk_destroy_step i h)

/-- C2 counterexample: initialization of session `"a"` fails after
`os.makedirs` has created `user_sessions/a`.  The resulting state is
reachable, the id is not registered, yet its directory exists — the
"directory exists iff registered" invariant is violated. -/
theorem c2_failed_init_leaves_directory :
    Reachable (init_session "a" false 0 SysState.empty) ∧
    init_session "a" false 0 SysState.empty = ⟨[], ["a"]⟩ ∧
    (init_session "a" false 0 SysState.empty).disk.contains "a" = true ∧
    (init_session "a" false 0 SysState.empty).registry.any (fun e => e.1 = "a") = false :=
  ⟨Reachable.initSession "a" false 0 Reachable.start, by decide, by decide, by decide⟩

/-- C2 amended: at every reachable state, a registered session id has its
directory on disk (that direction of the invariant holds), and a failed
initialization never registers anything — but the directory created before
the failure may remain, so the converse direction fails. -/
theorem c2_registered_implies_directory (s : SysState) (hs : Reachable s) :
    RegImpliesDisk s ∧
    ∀ sid now, (init_session sid false now s).registry = s.registry := by
  constructor
  · induction hs with
    | start => intro sid h; simp [SysState.empty] at h
    | initSession sid ok now _ ih => exact regImpliesDisk_init sid ok now ih
    | query sid now _ ih => exact regImpliesDisk_touch sid now ih
    | reset sid _ ih => exact regImpliesDisk_reset sid ih
    | sweep now _ ih => exact regImpliesDisk_destroy _ ih
    | sweepRace now qsid qnow _ ih =>
      exact regImpliesDisk_destroy _ (regImpliesDisk_touch qsid qnow ih)
  · intro sid now
    unfold init_session
    split_ifs <;> first | rfl | contradiction

theorem c2_registered_implies_directory_witness :
    "s" ∈ (init_session "s" true 5 SysState.empty).disk ∧
    (init_session "x" false 7 (init_session "s" true 5 SysState.empty)).registry
      = (init_session "s" true 5 SysState.empty).registry :=
  ⟨(c2_registered_implies_directory (init_session "s" true 5 SysState.empty)
      (Reachable.initSession "s" true 5 Reachable.start)).1 "s" (by decide),
   (c2_registered_implies_directory (init_session "s" true 5 SysState.empty)
      (Reachable.initSession "s" true 5 Reachable.start)).2 "x" 7⟩

/-! ## C6 — reset removes the session and is idempotent -/

theorem any_filter_key_self (l : List (String × Int)) (sid : String) :
    (l.filter (fun e => e.1 ≠ sid)).any (fun e => e.1 = sid) = false := by
  induction l with
  | nil => rfl
  | cons e es ih => by_cases hc : e.1 = sid <;> simp [hc, ih]

theorem contains_filter_self (l : List String) (sid : String) :
    (l.filter (fun d => d ≠ sid)).contains sid = false := by
  induction l with
  | nil => rfl
  | cons d ds ih =>
    by_cases hc : d = sid
    · simp [hc, ih]
    · simp [hc, ih]
      exact fun h => hc h.symm

theorem reset_endpoint_unregisters (s : SysState) (sid : String) :
    (reset_endpoint sid s).registry.any (fun e => e.1 = sid) = false := by
  unfold reset_endpoint
  split_ifs with h1
  · exact any_filter_key_self _ _
  · simp only [Bool.not_eq_true] at h1
    exact h1

theorem reset_endpoint_absent_noop (s : SysState) (sid : String)
    (h : s.registry.any (fun e => e.1 = sid) = false) :
    reset_endpoint sid s = s := by
  unfold reset_endpoint
  rw [if_neg]
  simp [h]

/-- C6 counterexample: for the reachable state left by a failed
initialization of `"a"` (directory on disk, id unregistered), `reset("a")`
completes — the endpoint reports success — yet the directory
`user_sessions/a` still exists afterwards, because the endpoint only
tears down registered sessions. -/
theorem c6_reset_leaves_orphan_directory :
    Reachable (reset_endpoint "a" (init_session "a" false 0 SysState.empty)) ∧
    reset_endpoint "a" (init_session "a" false 0 SysState.empty) = ⟨[], ["a"]⟩ ∧
    (reset_endpoint "a" (init_session "a" false 0 SysState.empty)).disk.contains "a" = true :=
  ⟨Reachable.reset "a" (Reachable.initSession "a" false 0 Reachable.start),
    by decide, by decide⟩

/-- C6 amended: after `reset(id)` the id is absent from the registry; if
the id was registered, its directory is deleted; and reset is idempotent —
a second `reset(id)` succeeds as a no-op, leaving the same state.  (The
qualification the counterexample forces: a directory orphaned by a failed
initialization, whose id is not registered, is not removed.) -/
theorem c6_reset_removes_and_idempotent (s : SysState) (sid : String) :
    (reset_endpoint sid s).registry.any (fun e => e.1 = sid) = false ∧
    (s.registry.any (fun e => e.1 = sid) = true →
      (reset_endpoint sid s).disk.contains sid = false) ∧
    reset_endpoint sid (reset_endpoint sid s) = reset_endpoint sid s := by
  refine ⟨reset_endpoint_unregisters s sid, ?_, ?_⟩
  · intro h
    unfold reset_endpoint
    rw [if_pos h]
    exact contains_filter_self _ _
  · exact reset_endpoint_absent_noop _ _ (reset_endpoint_unregisters s sid)

theorem c6_reset_removes_and_idempotent_witness :
    (reset_endpoint "s" (init_session "s" true 0 SysState.empty)).registry.any
      (fun e => e.1 = "s") = false ∧
    (reset_endpoint "s" (init_session "s" true 0 SysState.empty)).disk.contains "s" = false ∧
    reset_endpoint "s" (reset_endpoint "s" (init_session "s" true 0 SysState.empty))
      = reset_endpoint "s" (init_session "s" true 0 SysState.empty) :=
  ⟨(c6_reset_removes_and_idempotent (init_session "s" true 0 SysState.empty) "s").1,
   (c6_reset_removes_and_idempotent (init_session "s" true 0 SysState.empty) "s").2.1 (by decide),
   (c6_reset_removes_and_idempotent (init_session "s" true 0 SysState.empty) "s").2.2⟩

/-! ## C3 — what the similarity search actually runs on -/

theorem recent_conversations_ne_nil (h : List ConvTurn) (hne : h ≠ []) :
    recent_conversations h ≠ [] := by
  unfold recent_conversations pySliceLast
  rw [if_neg (by decide : ¬max_context_turns = 0)]
  intro hd
  rw [List.drop_eq_nil_iff] at hd
  have h0 : h.length ≠ 0 := fun hz => hne (List.length_eq_zero.mp hz)
  have h5 : max_context_turns = 5 := rfl
  omega

theorem joinLines_length_head (x : String) (xs : List String) :
    x.length ≤ (joinLines (x :: xs)).length := by
  cases xs with
  | nil => simp [joinLines]
  | cons y ys =>
    show x.length ≤ (x ++ "\n" ++ joinLines (y :: ys)).length
    simp [String.length_append]
    omega

theorem contextLine_length_pos (c : ConvTurn) : 0 < (contextLine c).length := by
  unfold contextLine
  have h12 : "Previous Q: ".length = 12 := by decide
  simp only [String.length_append]
  omega

theorem buildContext_ne_empty (h : List ConvTurn) (hne : h ≠ []) :
    buildContext h ≠ "" := by
  unfold buildContext
  obtain ⟨d, ds, hds⟩ := List.exists_cons_of_ne_nil (recent_conversations_ne_nil h hne)
  rw [hds, List.map_cons]
  intro heq
  have h1 := joinLines_length_head (contextLine d) (ds.map contextLine)
  have h2 := contextLine_length_pos d
  rw [heq] at h1
  have h0 : ("" : String).length = 0 := rfl
  omega

/-- C3 counterexample: with one prior turn in the log, the string handed to
the retrieval chain is the context-enhanced prompt, not the current
pivot-language query `"q2"` alone. -/
theorem c3_retrieval_uses_enhanced_prompt :
    retrievalInput [⟨"q1", "r1", some "eq1", some "er1", "en", "en", 0⟩] "q2" ≠ "q2" ∧
    retrievalInput [⟨"q1", "r1", some "eq1", some "er1", "en", "en", 0⟩] "q2"
      = "Recent conversation context:\nPrevious Q: eq1\nPrevious A: er1\n\nCurrent question: q2" := by
  constructor
  · decide
  · decide

/-- C3 amended: the session pipeline retrieves `search_k = 3` chunks, but
the retrieval input is the enhanced prompt (conversation window plus
current query): it equals the current query alone exactly when the window
is empty, and differs from it whenever the log is non-empty.  (The Django
backend engine's `retrieve_context` does take the query alone, but with a
default `top_k` of 4, not 3.) -/
theorem c3_retrieval_input_characterization (history : List ConvTurn) (q : String)
    (hne : history ≠ []) :
    search_k = 3 ∧
    retrieve_context_top_k = 4 ∧
    retrievalInput [] q = q ∧
    retrievalInput history q = enhanced_query history q ∧
    retrievalInput history q ≠ q := by
  refine ⟨rfl, rfl, rfl, rfl, ?_⟩
  have hctx : buildContext history ≠ "" := buildContext_ne_empty history hne
  unfold retrievalInput enhanced_query
  rw [if_neg hctx]
  intro heq
  have hL := congrArg String.length heq
  simp only [String.length_append] at hL
  have h29 : "Recent conversation context:\n".length = 29 := by decide
  omega

theorem c3_retrieval_input_characterization_witness :
    search_k = 3 ∧
    retrieve_context_top_k = 4 ∧
    retrievalInput [] "q2" = "q2" ∧
    retrievalInput sampleHistory "q2" = enhanced_query sampleHistory "q2" ∧
    retrievalInput sampleHistory "q2" ≠ "q2" :=
  c3_retrieval_input_characterization sampleHistory "q2" (by decide)

/-! ## C4 — the translation cache key truncates the text -/

theorem string_append_left_cancel (a b c : String) (h : a ++ b = a ++ c) : b = c := by
  have hd := congrArg String.data h
  rw [String.data_append, String.data_append] at hd
  have h2 := List.append_cancel_left hd
  cases b; cases c; exact congrArg String.mk h2

theorem cache_key_take_inj (src tgt a b : String) :
    cache_key src tgt a = cache_key src tgt b ↔ pyTake100 a = pyTake100 b := by
  unfold cache_key
  constructor
  · intro h
    exact string_append_left_cancel (src ++ ":" ++ tgt ++ ":") _ _ h
  · intro h
    rw [h]

/-- A 100-character string, for exhibiting the key truncation. -/
def long_a : String := ⟨List.replicate 100 'a'⟩

/-- A translation backend oracle that tags its input, so distinct inputs
translate to distinct outputs. -/
def c4_backend : String → String → String → Option String :=
  fun text _ _ => some ("T" ++ text)

/-- C4 counterexample: two distinct 101-character texts sharing their
first 100 characters collide in the cache: translating the first and then
the second (same source `fr`, target `en`) returns the *first* text's
cached translation for the second text, without calling the backend. -/
theorem c4_distinct_texts_share_cache_entry :
    long_a ++ "x" ≠ long_a ++ "y" ∧
    (translate_text c4_backend
        (translate_text c4_backend [] (long_a ++ "x") "en" "fr").cache
        (long_a ++ "y") "en" "fr").backendCalled = false ∧
    (translate_text c4_backend
        (translate_text c4_backend [] (long_a ++ "x") "en" "fr").cache
        (long_a ++ "y") "en" "fr").text = "T" ++ (long_a ++ "x") := by
  refine ⟨by decide, by decide, by decide⟩

/-- C4 amended: the cache is keyed by (source language, target language,
*first 100 characters* of the text): for two translate calls with the same
source and target (the second on the cache left by the first), the second
call is served from the cache exactly when the two texts agree on their
first 100 characters — not when they are identical. -/
theorem c4_cache_hit_iff_prefix_eq (bk : String → String → String → Option String)
    (t1 t2 src tgt v : String)
    (h1 : pyStrip t1 ≠ "") (h2 : pyStrip t2 ≠ "")
    (hpiv : ¬(tgt = "en" ∧ src = "en"))
    (hbk : bk t1 src tgt = some v) :
    ((translate_text bk (translate_text bk [] t1 tgt src).cache t2 tgt src).backendCalled
        = false
      ↔ pyTake100 t1 = pyTake100 t2) := by
  have hr1 : translate_text bk [] t1 tgt src = ⟨v, [(cache_key src tgt t1, v)], true⟩ := by
    unfold translate_text
    rw [if_neg h1, if_neg hpiv]
    simp [List.lookup, hbk]
  rw [hr1]
  unfold translate_text
  rw [if_neg h2, if_neg hpiv]
  by_cases hk : cache_key src tgt t2 = cache_key src tgt t1
  · have hl : (([(cache_key src tgt t1, v)] : List (String × String))).lookup
        (cache_key src tgt t2) = some v := by
      simp [List.lookup, hk]
    simp only [hl]
    simp only [true_iff, eq_self_iff_true]
    exact ((cache_key_take_inj src tgt t2 t1).mp hk).symm
  · have hb : (cache_key src tgt t2 == cache_key src tgt t1) = false :=
      beq_eq_false_iff_ne.mpr hk
    have hl : (([(cache_key src tgt t1, v)] : List (String × String))).lookup
        (cache_key src tgt t2) = none := by
      simp [List.lookup, hb]
    simp only [hl]
    cases hbk2 : bk t2 src tgt <;> simp only [hbk2]
    · constructor
      · intro hfalse
        exact absurd hfalse (by decide)
      · intro hteq
        exact absurd ((cache_key_take_inj src tgt t2 t1).mpr hteq.symm) hk
    · constructor
      · intro hfalse
        exact absurd hfalse (by decide)
      · intro hteq
        exact absurd ((cache_key_take_inj src tgt t2 t1).mpr hteq.symm) hk

theorem c4_cache_hit_iff_prefix_eq_witness :
    (translate_text c4_backend
        (translate_text c4_backend [] "bonjour" "en" "fr").cache
        "bonjour" "en" "fr").backendCalled = false ↔
      pyTake100 "bonjour" = pyTake100 "bonjour" :=
  c4_cache_hit_iff_prefix_eq c4_backend "bonjour" "bonjour" "fr" "en" ("T" ++ "bonjour")
    (by decide) (by decide) (by simp) rfl

/-! ## C5 — generation failure degrades to the fixed apology -/

/-- C5: for a non-blank query, when the QA chain / generation backend
fails, `query_with_context` still returns normally: the backend is invoked
exactly once (no retry), and the returned response is the fixed pivot-language
apology — translated into the session's user language when that is not the
pivot. -/
theorem c5_generation_failure_returns_apology (env : PipelineEnv) (now : Int)
    (st : RAGState) (q : String)
    (hq : pyStrip q ≠ "") (hgen : ∀ p, env.gen p = none) :
    (query_with_context env now st q).genCalls = 1 ∧
    ((query_with_context env now st q).state.user_language = "en" →
      (query_with_context env now st q).response = apology_message) ∧
    ((query_with_context env now st q).state.user_language ≠ "en" →
      (query_with_context env now st q).response
        = env.fromEnglish apology_message
            (query_with_context env now st q).state.user_language) := by
  unfold query_with_context
  rw [if_neg hq]
  simp only [hgen, Option.getD_none]
  refine ⟨trivial, ?_, ?_⟩
  · intro h
    simp [h]
  · intro h
    simp [h]

theorem c5_generation_failure_returns_apology_witness :
    (query_with_context ⟨fun _ => "en", fun t _ => t, fun t _ => t, fun _ => none⟩
      0 ⟨"en", [], 0⟩ "What is the main topic?").genCalls = 1 ∧
    (query_with_context ⟨fun _ => "en", fun t _ => t, fun t _ => t, fun _ => none⟩
      0 ⟨"en", [], 0⟩ "What is the main topic?").response = apology_message := by
  obtain ⟨h1, h2, -⟩ := c5_generation_failure_returns_apology
    ⟨fun _ => "en", fun t _ => t, fun t _ => t, fun _ => none⟩
    0 ⟨"en", [], 0⟩ "What is the main topic?" (by decide) (fun p => rfl)
  exact ⟨h1, h2 (by decide)⟩

end ConsultAID
